import Mathlib

/-!
# x11game: geometry, entities and the game state machine

A shallow embedding of `src/part09/main.cpp` (namespace `mygame`).

* C++ `int` and `long` values are modelled as `Int` (exact arithmetic: the
  embedding describes every run in which no signed overflow occurs);
  `unsigned` values (key codes, colours) are `Nat`.
* `%` and `/` on `int` truncate toward zero, hence `Int.tmod` and `Int.tdiv`.
* `std::vector` is `List`; `std::find_if` followed by `erase` is `List.eraseP`.
* Everything the program reads from outside (the clock, `std::rand()`, the
  pending X event, the window geometry) is an explicit argument.
* The only display effect that is tracked is the number of
  `gamedisplay_.redraw()` requests; drawing and printing are not modelled.
-/

namespace mygame

/-! ## Key codes -/

def KEY_ESCAPE : Nat := 9

def KEY_SPACEBAR : Nat := 65

def KEY_UP : Nat := 111

def KEY_RIGHT : Nat := 114

def KEY_DOWN : Nat := 116

def KEY_LEFT : Nat := 113

/-! ## Geometry -/

structure Point where
  x : Int
  y : Int
deriving DecidableEq

structure Size where
  width : Int
  height : Int
deriving DecidableEq

structure Rect where
  x : Int
  y : Int
  width : Int
  height : Int
deriving DecidableEq

def Rect.tl (r : Rect) : Point :=
  ⟨min r.x (r.x + r.width), min r.y (r.y + r.height)⟩

def Rect.br (r : Rect) : Point :=
  ⟨max r.x (r.x + r.width), max r.y (r.y + r.height)⟩

def Rect.tr (r : Rect) : Point :=
  ⟨max r.x (r.x + r.width), min r.y (r.y + r.height)⟩

def Rect.bl (r : Rect) : Point :=
  ⟨min r.x (r.x + r.width), max r.y (r.y + r.height)⟩

def pointInRect (p : Point) (r : Rect) : Bool :=
  decide (p.x ≥ r.tl.x) && decide (p.x ≤ r.br.x)
    && decide (p.y ≥ r.tl.y) && decide (p.y ≤ r.br.y)

def inRange (i min_i max_i : Int) : Bool :=
  decide (i ≥ min_i) && decide (i ≤ max_i)

/-- The function `rectangleIntersect`: check 1 looks for a corner of `r1` inside `r2`,
check 2 for an `r1` that crosses `r2` with all four corners outside. -/
def rectangleIntersect (r1 r2 : Rect) : Bool :=
  if (pointInRect r1.tl r2 || pointInRect r1.br r2)
      || (pointInRect r1.tr r2 || pointInRect r1.bl r2) then
    true
  else if ((inRange r1.tl.x r2.tl.x r2.br.x || inRange r1.br.x r2.tl.x r2.br.x)
        && decide (r1.tl.y < r2.tl.y) && decide (r1.br.y > r2.br.y))
      || ((inRange r1.tl.y r2.tl.y r2.br.y || inRange r1.br.y r2.tl.y r2.br.y)
        && decide (r1.tl.x < r2.tl.x) && decide (r1.br.x > r2.br.x)) then
    true
  else
    false

/-! ## Entities -/

structure Character where
  color : Nat
  position : Point
  size : Size
deriving DecidableEq

def Character.bounds (c : Character) : Rect :=
  ⟨c.position.x, c.position.y, c.size.width, c.size.height⟩

/-- The struct `Player` adds no member to `Character`. -/
abbrev Player := Character

/-- The struct `Food` adds no member to `Character`. -/
abbrev Food := Character

/-- The constructor `Player()`. -/
def Player.ctor : Player :=
  { color := 0x6091ab, position := ⟨10, 10⟩, size := ⟨10, 10⟩ }

/-- The constructor `Food()`. -/
def Food.ctor : Food :=
  { color := 0xe0f731, position := ⟨100, 100⟩, size := ⟨10, 10⟩ }

/-- The struct `Ghost`. Its member `time_` is the clock; a reading of `time_.time()` is
passed to each operation as the argument `now`. -/
structure Ghost extends Character where
  time_at_last_move_ns_ : Int
  move_time_ns_ : Int
deriving DecidableEq

/-- The constructor `Ghost()`; `now` is the reading of `time_.time()` in its body. -/
def Ghost.ctor (now : Int) : Ghost :=
  { color := 0xff0000, position := ⟨100, 100⟩, size := ⟨10, 10⟩,
    time_at_last_move_ns_ := now, move_time_ns_ := 250000000 }

/-- The method `Ghost::move`; `rnd` is the value of `std::rand()`, `now` the clock reading. -/
def Ghost.move (g : Ghost) (rnd : Int) (now : Int) : Ghost :=
  let direction : Int := rnd.tmod 4
  let MOVE_DIST : Int := 10
  let g1 : Ghost :=
    if direction = 0 then
      { g with position := ⟨g.position.x, g.position.y - MOVE_DIST⟩ }
    else if direction = 1 then
      { g with position := ⟨g.position.x, g.position.y + MOVE_DIST⟩ }
    else if direction = 2 then
      { g with position := ⟨g.position.x - MOVE_DIST, g.position.y⟩ }
    else if direction = 3 then
      { g with position := ⟨g.position.x + MOVE_DIST, g.position.y⟩ }
    else
      g
  { g1 with time_at_last_move_ns_ := now }

/-- The method `Ghost::isTimeToMove`; `now` is the clock reading. -/
def Ghost.isTimeToMove (g : Ghost) (now : Int) : Bool :=
  decide (now - g.time_at_last_move_ns_ ≥ g.move_time_ns_)

/-! ## The game -/

/-- The data members of `Game` that the simulation reads or writes, and the number of
`gamedisplay_.redraw()` requests issued so far. -/
structure Game where
  is_running_ : Bool
  game_over : Bool
  game_won : Bool
  player_ : Player
  food_ : List Food
  ghosts_ : List Ghost
  redraw_count : Nat
deriving DecidableEq

/-- The X event stored in `event_`, as far as `handleEvent` distinguishes events. -/
inductive Event where
  | expose : Event
  | keyPress (keycode : Nat) : Event
  | other : Event
deriving DecidableEq

/-- What one ghost reads during `updateGhosts`: the clock in `isTimeToMove`, then, when it
moves, `std::rand()` and the clock again. -/
structure GhostTick where
  now_query : Int
  rnd : Int
  now_move : Int

/-- Everything one iteration of the loop of `Game::run` reads from outside: the readings of
the ghosts (by index), the pending event if any, the values of `std::rand()` and of the
clock used by a reset (in call order), and the window geometry. -/
structure Inputs where
  ghost_ticks : Nat → GhostTick
  event : Option Event
  spawn_rnd : Nat → Int
  spawn_clock : Nat → Int
  geometry : Rect

/-- The method `Game::createFood`: ten foods, each taking two values of `std::rand()` (x, then y). -/
def createFood (rnd : Nat → Int) : List Food :=
  (List.range 10).map (fun i =>
    { Food.ctor with
      position := ⟨((rnd (2 * i)).tmod 800).tdiv 10 * 10,
                   ((rnd (2 * i + 1)).tmod 600).tdiv 10 * 10⟩ })

/-- The method `Game::createGhosts`: ten ghosts, constructed at the clock readings `clock 0 .. clock 9`,
each then taking two values of `std::rand()` (x, then y). -/
def createGhosts (rnd : Nat → Int) (clock : Nat → Int) : List Ghost :=
  (List.range 10).map (fun i =>
    { Ghost.ctor (clock i) with
      position := ⟨((rnd (2 * i)).tmod 800).tdiv 10 * 10,
                   ((rnd (2 * i + 1)).tmod 600).tdiv 10 * 10⟩ })

/-- The constructor `Game::Game`, with the default member initialisers. -/
def Game.ctor (rnd : Nat → Int) (clock : Nat → Int) : Game :=
  { is_running_ := true, game_over := false, game_won := false,
    player_ := Player.ctor,
    food_ := createFood rnd,
    ghosts_ := createGhosts (fun i => rnd (i + 20)) clock,
    redraw_count := 0 }

/-- The first statement pair of `Game::update`: `find_if` on the food and `erase` of the
element found, if any. -/
def updateFood (s : Game) : Game :=
  { s with
    food_ := s.food_.eraseP (fun f => rectangleIntersect s.player_.bounds f.bounds) }

/-- The method `Game::update`. -/
def update (s : Game) : Game :=
  let s1 := updateFood s
  let s2 := if s1.food_.isEmpty then { s1 with game_over := true, game_won := true } else s1
  if s2.ghosts_.any (fun g => rectangleIntersect s2.player_.bounds g.bounds) then
    { s2 with game_over := true, game_won := false }
  else
    s2

/-- The loop of `Game::updateGhosts`: the new ghosts and the flag `ghost_moved`. -/
def updateGhostsLoop : List Ghost → (Nat → GhostTick) → List Ghost × Bool
  | [], _ => ([], false)
  | g :: gs, ticks =>
    let rest := updateGhostsLoop gs (fun i => ticks (i + 1))
    if g.isTimeToMove (ticks 0).now_query then
      (g.move (ticks 0).rnd (ticks 0).now_move :: rest.1, true)
    else
      (g :: rest.1, rest.2)

/-- The method `Game::updateGhosts`. -/
def updateGhosts (s : Game) (ticks : Nat → GhostTick) : Game :=
  let r := updateGhostsLoop s.ghosts_ ticks
  { s with
    ghosts_ := r.1,
    redraw_count := if r.2 then s.redraw_count + 1 else s.redraw_count }

/-- The method `Game::resetGame`: `createFood` takes the first twenty values of
`std::rand()`, `createGhosts` the next twenty. -/
def resetGame (s : Game) (rnd : Nat → Int) (clock : Nat → Int) : Game :=
  { s with
    player_ := { s.player_ with position := ⟨10, 10⟩ },
    food_ := createFood rnd,
    ghosts_ := createGhosts (fun i => rnd (i + 20)) clock,
    game_won := false,
    game_over := false }

/-- The `switch` on the key code in `Game::handleEvent`. -/
def keySwitch (s : Game) (keycode : Nat) (rnd : Nat → Int) (clock : Nat → Int) : Game :=
  if keycode = KEY_UP then
    if !s.game_over then
      { s with
        player_ := { s.player_ with
          position := ⟨s.player_.position.x, s.player_.position.y - 10⟩ },
        redraw_count := s.redraw_count + 1 }
    else s
  else if keycode = KEY_DOWN then
    if !s.game_over then
      { s with
        player_ := { s.player_ with
          position := ⟨s.player_.position.x, s.player_.position.y + 10⟩ },
        redraw_count := s.redraw_count + 1 }
    else s
  else if keycode = KEY_LEFT then
    if !s.game_over then
      { s with
        player_ := { s.player_ with
          position := ⟨s.player_.position.x - 10, s.player_.position.y⟩ },
        redraw_count := s.redraw_count + 1 }
    else s
  else if keycode = KEY_RIGHT then
    if !s.game_over then
      { s with
        player_ := { s.player_ with
          position := ⟨s.player_.position.x + 10, s.player_.position.y⟩ },
        redraw_count := s.redraw_count + 1 }
    else s
  else if keycode = KEY_SPACEBAR then
    if s.game_over then resetGame s rnd clock else s
  else if keycode = KEY_ESCAPE then
    { s with is_running_ := false }
  else
    s

/-- The method `Game::handleEvent`: an Expose event only draws; a KeyPress runs the
`switch` and then `update`. -/
def handleEvent (s : Game) (ev : Event) (rnd : Nat → Int) (clock : Nat → Int) : Game :=
  match ev with
  | Event.expose => s
  | Event.keyPress keycode => update (keySwitch s keycode rnd clock)
  | Event.other => s

/-- The method `Game::isPlayerWithinBounds`; `w` is the result of `getGeometry`. -/
def isPlayerWithinBounds (s : Game) (w : Rect) : Bool :=
  if decide (s.player_.position.x < 0) || decide (s.player_.position.x > w.width)
      || decide (s.player_.position.y < 0) || decide (s.player_.position.y > w.height) then
    false
  else
    true

/-- The first statement of the loop body of `Game::run`. -/
def ghostPhase (s : Game) (ticks : Nat → GhostTick) : Game :=
  if !s.game_over then updateGhosts s ticks else s

/-- The body of the `while` loop of `Game::run`. -/
def runIteration (s : Game) (inp : Inputs) : Game :=
  let s1 := ghostPhase s inp.ghost_ticks
  match inp.event with
  | none => s1
  | some ev =>
    let s2 := handleEvent s1 ev inp.spawn_rnd inp.spawn_clock
    if !s2.game_over && !isPlayerWithinBounds s2 inp.geometry then
      { s2 with game_over := true, game_won := false }
    else
      s2

/-- The method `Game::run` over the inputs of finitely many iterations. -/
def run : Game → List Inputs → Game
  | s, [] => s
  | s, inp :: rest => if s.is_running_ then run (runIteration s inp) rest else s

/-! ## Predicates and concrete inputs used by the statements -/

/-- The closed regions of `r1` and `r2`, spanned by their normalized corners, have a
point in common (their spans meet on both axes). -/
def regionsMeet (r1 r2 : Rect) : Prop :=
  r1.tl.x ≤ r2.br.x ∧ r2.tl.x ≤ r1.br.x ∧ r1.tl.y ≤ r2.br.y ∧ r2.tl.y ≤ r1.br.y

/-- The region of `r2` lies strictly inside the region of `r1` on both axes. -/
def strictlyEncloses (r1 r2 : Rect) : Prop :=
  r1.tl.x < r2.tl.x ∧ r2.br.x < r1.br.x ∧ r1.tl.y < r2.tl.y ∧ r2.br.y < r1.br.y

/-- The state in which `update` runs when the pending event of an iteration is a key
press: the ghosts have been advanced and the `switch` has been executed. -/
def stateAtUpdate (s : Game) (inp : Inputs) (keycode : Nat) : Game :=
  keySwitch (ghostPhase s inp.ghost_ticks) keycode inp.spawn_rnd inp.spawn_clock

/-- Some ghost of `s` touches the player, in the argument order used by `update`. -/
def ghostContact (s : Game) : Prop :=
  ∃ g ∈ s.ghosts_, rectangleIntersect s.player_.bounds g.bounds = true

instance ghostContactDecidable (s : Game) : Decidable (ghostContact s) := by
  unfold ghostContact
  exact inferInstance

/-- Some food of `s` touches the player, in the argument order used by `update`. -/
def foodContact (s : Game) : Prop :=
  ∃ f ∈ s.food_, rectangleIntersect s.player_.bounds f.bounds = true

instance foodContactDecidable (s : Game) : Decidable (foodContact s) := by
  unfold foodContact
  exact inferInstance

/-- A ghost at position `p`, last moved at clock reading 0. -/
def ghostAt (p : Point) : Ghost :=
  { Ghost.ctor 0 with position := p }

/-- A food at position `p`. -/
def foodAt (p : Point) : Food :=
  { Food.ctor with position := p }

/-- A player at position `p`. -/
def playerAt (p : Point) : Player :=
  { Player.ctor with position := p }

/-- The `n` ghosts at (500, 500), away from the top-left part of the arena. -/
def farGhosts (n : Nat) : List Ghost :=
  List.replicate n (ghostAt ⟨500, 500⟩)

/-- Values of `std::rand()` for a spawn that puts the first food and the first ghost at
(10, 10) and everything else at (400, 400). -/
def spawnOnPlayer (i : Nat) : Int :=
  if i = 0 ∨ i = 1 ∨ i = 20 ∨ i = 21 then 15 else 405

/-- Inputs of an iteration in which every clock reads 0 (so no ghost created at 0 is due),
`std::rand()` returns 0 and the window is 800 by 600. -/
def quietInputs (ev : Option Event) : Inputs :=
  { ghost_ticks := fun _ => ⟨0, 0, 0⟩, event := ev,
    spawn_rnd := fun _ => 0, spawn_clock := fun _ => 0,
    geometry := ⟨0, 0, 800, 600⟩ }

/-- A player, one food and one ghost, all with bounds (100, 100, 10, 10). -/
def contactState : Game :=
  { is_running_ := true, game_over := false, game_won := false,
    player_ := playerAt ⟨100, 100⟩, food_ := [Food.ctor], ghosts_ := [Ghost.ctor 0],
    redraw_count := 0 }

/-- A running game with the given player position, food and ghosts. -/
def playingState (p : Point) (food : List Food) (ghosts : List Ghost) : Game :=
  { is_running_ := true, game_over := false, game_won := false,
    player_ := playerAt p, food_ := food, ghosts_ := ghosts, redraw_count := 0 }

/-- A lost game with the given player position, food and ghosts. -/
def lostState (p : Point) (food : List Food) (ghosts : List Ghost) : Game :=
  { is_running_ := true, game_over := true, game_won := false,
    player_ := playerAt p, food_ := food, ghosts_ := ghosts, redraw_count := 0 }

/-- A running game: the player at (10, 10), the last food at (20, 10), ten ghosts far away. -/
def lastFoodState : Game :=
  playingState ⟨10, 10⟩ [foodAt ⟨20, 10⟩] (farGhosts 10)

/-- A running game: the player at (0, 50) on the left edge, the last food at (0, 60), ten
ghosts far away. -/
def edgeLastFoodState : Game :=
  playingState ⟨0, 50⟩ [foodAt ⟨0, 60⟩] (farGhosts 10)

/-- A running game: the player at (0, 50) on the left edge, one food at (300, 300), ten
ghosts far away. -/
def edgeState : Game :=
  playingState ⟨0, 50⟩ [foodAt ⟨300, 300⟩] (farGhosts 10)

/-- A game lost by leaving the arena: the player at (-10, 50), one food at (300, 300), ten
ghosts far away. -/
def outsideLostState : Game :=
  lostState ⟨-10, 50⟩ [foodAt ⟨300, 300⟩] (farGhosts 10)

/-- A game lost to the ghost at (30, 10): the player at (20, 10) also touches the food at
(20, 20); a second food at (300, 300) and nine more ghosts are far away. -/
def caughtNearFoodState : Game :=
  lostState ⟨20, 10⟩ [foodAt ⟨20, 20⟩, foodAt ⟨300, 300⟩] (ghostAt ⟨30, 10⟩ :: farGhosts 9)

/-- A game lost by leaving the arena: the player at (-10, 50) touches the last food at
(0, 60); ten ghosts are far away. -/
def outsideNearFoodState : Game :=
  lostState ⟨-10, 50⟩ [foodAt ⟨0, 60⟩] (farGhosts 10)

/-- A running game in which nothing touches the player at (10, 10): one food at (300, 300),
ten ghosts far away. -/
def calmState : Game :=
  playingState ⟨10, 10⟩ [foodAt ⟨300, 300⟩] (farGhosts 10)

/-- A running game in which the player at (10, 10) touches two foods, at (10, 10) and at
(20, 10); ten ghosts are far away. -/
def twoFoodState : Game :=
  playingState ⟨10, 10⟩ [foodAt ⟨10, 10⟩, foodAt ⟨20, 10⟩] (farGhosts 10)

/-- A coordinate pair on the 10-unit grid. -/
def onGrid (p : Point) : Prop :=
  (10 : Int) ∣ p.x ∧ (10 : Int) ∣ p.y

/-- The player and every ghost of `s` are on the 10-unit grid. -/
def gridAligned (s : Game) : Prop :=
  onGrid s.player_.position ∧ ∀ g ∈ s.ghosts_, onGrid g.position

/-- Some ghost of `s` is due at the clock reading it takes in `updateGhosts`. -/
def ghostDue (s : Game) (ticks : Nat → GhostTick) : Prop :=
  ∃ (i : Nat) (g : Ghost), s.ghosts_[i]? = some g ∧ g.isTimeToMove (ticks i).now_query = true

/-- The point `q` is one 10-unit step away from `p` along exactly one axis. -/
def oneGridStep (p q : Point) : Prop :=
  (q.x = p.x ∧ (q.y = p.y - 10 ∨ q.y = p.y + 10))
    ∨ (q.y = p.y ∧ (q.x = p.x - 10 ∨ q.x = p.x + 10))

/-- A running game in which the ghost at (10, 20) stands right below the player at
(10, 10); one food at (300, 300) and nine more ghosts are far away. -/
def ambushState : Game :=
  playingState ⟨10, 10⟩ [foodAt ⟨300, 300⟩] (ghostAt ⟨10, 20⟩ :: farGhosts 9)

/-- Inputs of an iteration without a pending event in which every ghost reads the clock at
250,000,000 (so a ghost last moved at 0 is due) and draws 0 from `std::rand()` (up). -/
def dueInputs : Inputs :=
  { ghost_ticks := fun _ => ⟨250000000, 0, 250000000⟩, event := none,
    spawn_rnd := fun _ => 0, spawn_clock := fun _ => 0,
    geometry := ⟨0, 0, 800, 600⟩ }

/-- A spawned entity: position on the grid with x in 0 .. 790 and y in 0 .. 590, size 10 by
10, hence wholly inside the 800 by 600 arena. -/
def spawnedInArena (c : Character) : Prop :=
  (0 ≤ c.position.x ∧ c.position.x ≤ 790 ∧ (10 : Int) ∣ c.position.x)
    ∧ (0 ≤ c.position.y ∧ c.position.y ≤ 590 ∧ (10 : Int) ∣ c.position.y)
    ∧ c.size = ⟨10, 10⟩
    ∧ c.position.x + c.size.width ≤ 800 ∧ c.position.y + c.size.height ≤ 600

/-- Inputs of an iteration in which every ghost is due and draws 3 from `std::rand()`
(right), with the given pending event. -/
def busyInputs (ev : Option Event) : Inputs :=
  { ghost_ticks := fun _ => ⟨250000000, 3, 250000000⟩, event := ev,
    spawn_rnd := fun _ => 0, spawn_clock := fun _ => 0,
    geometry := ⟨0, 0, 800, 600⟩ }

end mygame

namespace mygame

/-! ## Geometry -/

theorem Rect.tl_le_br (r : Rect) : r.tl.x ≤ r.br.x ∧ r.tl.y ≤ r.br.y := by
  simp only [Rect.tl, Rect.br]
  omega

theorem Rect.tr_eq (r : Rect) : r.tr = ⟨r.br.x, r.tl.y⟩ := rfl

theorem Rect.bl_eq (r : Rect) : r.bl = ⟨r.tl.x, r.br.y⟩ := rfl

/-- What `rectangleIntersect` computes: the regions meet and `r1` does not strictly
enclose `r2`. -/
theorem rectangleIntersect_eq_true_iff (r1 r2 : Rect) :
    rectangleIntersect r1 r2 = true ↔ regionsMeet r1 r2 ∧ ¬ strictlyEncloses r1 r2 := by
  have h1 := r1.tl_le_br
  have h2 := r2.tl_le_br
  simp only [rectangleIntersect, pointInRect, inRange, Rect.tr_eq, Rect.bl_eq,
    regionsMeet, strictlyEncloses, Bool.or_eq_true, Bool.and_eq_true, decide_eq_true_eq,
    Bool.if_true_left, Bool.if_false_right, Bool.and_true, Bool.or_false, ge_iff_le,
    gt_iff_lt]
  generalize r1.tl.x = a1 at *
  generalize r1.tl.y = c1 at *
  generalize r1.br.x = b1 at *
  generalize r1.br.y = d1 at *
  generalize r2.tl.x = a2 at *
  generalize r2.tl.y = c2 at *
  generalize r2.br.x = b2 at *
  generalize r2.br.y = d2 at *
  omega

theorem rectangleIntersect_self (r : Rect) : rectangleIntersect r r = true := by
  rw [rectangleIntersect_eq_true_iff]
  have h := r.tl_le_br
  simp only [regionsMeet, strictlyEncloses]
  omega

theorem rectangleIntersect_comm_of_size_eq (r1 r2 : Rect) (hw : r1.width = r2.width)
    (hh : r1.height = r2.height) :
    rectangleIntersect r1 r2 = rectangleIntersect r2 r1 := by
  rw [Bool.eq_iff_iff, rectangleIntersect_eq_true_iff, rectangleIntersect_eq_true_iff]
  simp only [regionsMeet, strictlyEncloses, Rect.tl, Rect.br]
  omega

/-- C1 (fails on the code): `rectangleIntersect` is not symmetric. With A = (0, 0, 100, 100)
and B = (10, 10, 10, 10), B inside A, `rectangleIntersect A B` is false while
`rectangleIntersect B A` is true. -/
theorem rectangleIntersect_asymmetric_at_enclosed :
    rectangleIntersect ⟨0, 0, 100, 100⟩ ⟨10, 10, 10, 10⟩ = false
      ∧ rectangleIntersect ⟨10, 10, 10, 10⟩ ⟨0, 0, 100, 100⟩ = true := by
  decide

/-- C2 (fails on the code): an overlap that `rectangleIntersect` misses. The point (20, 20)
lies in the closed regions of r1 = (0, 0, 50, 40) and of r2 = (20, 10, 10, 10), yet
`rectangleIntersect r1 r2` is false. -/
theorem rectangleIntersect_misses_enclosed :
    pointInRect ⟨20, 20⟩ ⟨0, 0, 50, 40⟩ = true
      ∧ pointInRect ⟨20, 20⟩ ⟨20, 10, 10, 10⟩ = true
      ∧ rectangleIntersect ⟨0, 0, 50, 40⟩ ⟨20, 10, 10, 10⟩ = false := by
  decide

/-! ## The method `update` -/

theorem update_player (s : Game) : (update s).player_ = s.player_ := by
  unfold update updateFood
  dsimp only
  split <;> split <;> rfl

theorem update_ghosts (s : Game) : (update s).ghosts_ = s.ghosts_ := by
  unfold update updateFood
  dsimp only
  split <;> split <;> rfl

theorem update_is_running (s : Game) : (update s).is_running_ = s.is_running_ := by
  unfold update updateFood
  dsimp only
  split <;> split <;> rfl

theorem update_redraw_count (s : Game) : (update s).redraw_count = s.redraw_count := by
  unfold update updateFood
  dsimp only
  split <;> split <;> rfl

theorem update_food (s : Game) : (update s).food_ = (updateFood s).food_ := by
  unfold update
  dsimp only
  split <;> split <;> rfl

theorem ghostContact_iff_any (s : Game) :
    ghostContact s ↔
      s.ghosts_.any (fun g => rectangleIntersect s.player_.bounds g.bounds) = true := by
  simp [ghostContact, List.any_eq_true]

/-- The flags after `update` when a ghost touches the player. -/
theorem update_flags_of_contact (s : Game) (h : ghostContact s) :
    (update s).game_over = true ∧ (update s).game_won = false := by
  have hany := (ghostContact_iff_any s).mp h
  unfold update updateFood
  dsimp only
  split <;> simp [hany]

/-- The flags after `update` when no ghost touches the player and the food is used up. -/
theorem update_flags_of_empty (s : Game) (h : ¬ ghostContact s)
    (hfood : (updateFood s).food_ = []) :
    (update s).game_over = true ∧ (update s).game_won = true := by
  have hany : s.ghosts_.any (fun g => rectangleIntersect s.player_.bounds g.bounds) = false := by
    rw [ghostContact_iff_any] at h
    simpa using h
  unfold update
  simp only [hfood, List.isEmpty_nil, if_true]
  simp [updateFood, hany]

/-- The flags after `update` when no ghost touches the player and food is left. -/
theorem update_flags_of_quiet (s : Game) (h : ¬ ghostContact s)
    (hfood : (updateFood s).food_ ≠ []) :
    (update s).game_over = s.game_over ∧ (update s).game_won = s.game_won := by
  have hany : s.ghosts_.any (fun g => rectangleIntersect s.player_.bounds g.bounds) = false := by
    rw [ghostContact_iff_any] at h
    simpa using h
  have hne : (updateFood s).food_.isEmpty = false := by
    cases hf : (updateFood s).food_ with
    | nil => exact absurd hf hfood
    | cons a l => rfl
  unfold update
  simp only [hne]
  simp [updateFood, hany]

/-- C3: ghost contact loses the game. If a ghost of the state touches the player (as
`update` tests it; or tested the other way round for a ghost of the player's size; or
because the ghost has the player's position and size), then `update` ends with
`game_over = true` and `game_won = false`, whatever happened to the food. -/
theorem update_ghost_contact_loses (s : Game) (g : Ghost) (hg : g ∈ s.ghosts_)
    (h : rectangleIntersect s.player_.bounds g.bounds = true
      ∨ (rectangleIntersect g.bounds s.player_.bounds = true ∧ g.size = s.player_.size)
      ∨ (g.position = s.player_.position ∧ g.size = s.player_.size)) :
    (update s).game_over = true ∧ (update s).game_won = false := by
  apply update_flags_of_contact
  refine ⟨g, hg, ?_⟩
  rcases h with h | ⟨h, hsz⟩ | ⟨hpos, hsz⟩
  · exact h
  · have hc := rectangleIntersect_comm_of_size_eq s.player_.bounds g.bounds
      (by simp [Character.bounds, hsz]) (by simp [Character.bounds, hsz])
    rw [hc]
    exact h
  · have hb : g.bounds = s.player_.bounds := by
      simp [Character.bounds, hpos, hsz]
    rw [hb]
    exact rectangleIntersect_self _

/-- Witness for C3: player, food and ghost all at (100, 100, 10, 10); the update empties
the food and the game is lost all the same. -/
theorem update_ghost_contact_loses_witness :
    Ghost.ctor 0 ∈ contactState.ghosts_
      ∧ (Ghost.ctor 0).position = contactState.player_.position
      ∧ (Ghost.ctor 0).size = contactState.player_.size
      ∧ (updateFood contactState).food_ = []
      ∧ (update contactState).game_over = true ∧ (update contactState).game_won = false :=
  ⟨by decide, by decide, by decide, by decide,
    update_ghost_contact_loses contactState (Ghost.ctor 0) (by decide)
      (Or.inr (Or.inr ⟨by decide, by decide⟩))⟩

/-! ## One iteration of the loop of `run` -/

theorem updateGhosts_game_over (s : Game) (ticks : Nat → GhostTick) :
    (updateGhosts s ticks).game_over = s.game_over := rfl

theorem ghostPhase_game_over (s : Game) (ticks : Nat → GhostTick) :
    (ghostPhase s ticks).game_over = s.game_over := by
  unfold ghostPhase
  split <;> rfl

theorem keySwitch_of_playing_game_over (s : Game) (keycode : Nat) (rnd clock : Nat → Int)
    (h : s.game_over = false) : (keySwitch s keycode rnd clock).game_over = false := by
  unfold keySwitch
  simp only [h]
  repeat (first | exact h | rfl | split)

theorem stateAtUpdate_of_playing_game_over (s : Game) (inp : Inputs) (keycode : Nat)
    (h : s.game_over = false) : (stateAtUpdate s inp keycode).game_over = false := by
  unfold stateAtUpdate
  apply keySwitch_of_playing_game_over
  rw [ghostPhase_game_over]
  exact h

/-- The loop body when the pending event is a key press. -/
theorem runIteration_keyPress (s : Game) (inp : Inputs) (keycode : Nat)
    (hev : inp.event = some (Event.keyPress keycode)) :
    runIteration s inp =
      if (!(update (stateAtUpdate s inp keycode)).game_over
          && !isPlayerWithinBounds (update (stateAtUpdate s inp keycode)) inp.geometry) then
        { update (stateAtUpdate s inp keycode) with game_over := true, game_won := false }
      else
        update (stateAtUpdate s inp keycode) := by
  unfold runIteration
  simp only [hev, handleEvent, stateAtUpdate]

theorem runIteration_keyPress_of_game_over (s : Game) (inp : Inputs) (keycode : Nat)
    (hev : inp.event = some (Event.keyPress keycode))
    (hover : (update (stateAtUpdate s inp keycode)).game_over = true) :
    runIteration s inp = update (stateAtUpdate s inp keycode) := by
  rw [runIteration_keyPress s inp keycode hev]
  simp [hover]

/-- C4: win condition. In a running game, when the pending event is a key press, the food
is used up after the food step of `update` and no ghost touches the player in that
`update`, the loop iteration ends in the state Won. -/
theorem win_condition (s : Game) (inp : Inputs) (keycode : Nat)
    (_hplaying : s.game_over = false)
    (hev : inp.event = some (Event.keyPress keycode))
    (hfood : (updateFood (stateAtUpdate s inp keycode)).food_ = [])
    (hghost : ¬ ghostContact (stateAtUpdate s inp keycode)) :
    (runIteration s inp).game_over = true ∧ (runIteration s inp).game_won = true := by
  have hflags := update_flags_of_empty (stateAtUpdate s inp keycode) hghost hfood
  rw [runIteration_keyPress_of_game_over s inp keycode hev hflags.1]
  exact hflags

/-- Witness for C4: the player at (10, 10) steps right onto the last food at (20, 10),
the ten ghosts are far away. -/
theorem win_condition_witness :
    lastFoodState.game_over = false
      ∧ (runIteration lastFoodState
          (quietInputs (some (Event.keyPress KEY_RIGHT)))).game_over = true
      ∧ (runIteration lastFoodState
          (quietInputs (some (Event.keyPress KEY_RIGHT)))).game_won = true :=
  ⟨by decide,
    win_condition lastFoodState
      (quietInputs (some (Event.keyPress KEY_RIGHT))) KEY_RIGHT
      (by decide) rfl (by decide) (by decide)⟩

/-- C5 (as stated, fails on the code): a running game with the player at (0, 50), the last
food at (0, 60), ten ghosts far away and a window (0, 0, 800, 600). The Left press moves the
player to (-10, 50), where it touches the food; the iteration ends Won, not Lost. -/
theorem bounds_exit_can_win :
    edgeLastFoodState.game_over = false
      ∧ (runIteration edgeLastFoodState
          (quietInputs (some (Event.keyPress KEY_LEFT)))).player_.position = ⟨-10, 50⟩
      ∧ (runIteration edgeLastFoodState
          (quietInputs (some (Event.keyPress KEY_LEFT)))).game_over = true
      ∧ (runIteration edgeLastFoodState
          (quietInputs (some (Event.keyPress KEY_LEFT)))).game_won = true := by
  decide

/-- C5 (amended): in a running game, a directional key press after which the player has
`x < 0` ends the loop iteration with `game_over = true`; the state is Lost, except that it
is Won exactly when the food step of that `update` used up the food and no ghost touches
the player. -/
theorem bounds_exit_ends_game (s : Game) (inp : Inputs) (keycode : Nat)
    (hplaying : s.game_over = false)
    (hev : inp.event = some (Event.keyPress keycode))
    (_hdir : keycode = KEY_UP ∨ keycode = KEY_DOWN ∨ keycode = KEY_LEFT ∨ keycode = KEY_RIGHT)
    (hx : (stateAtUpdate s inp keycode).player_.position.x < 0) :
    (runIteration s inp).game_over = true
      ∧ ((runIteration s inp).game_won = true ↔
          ((updateFood (stateAtUpdate s inp keycode)).food_ = []
            ∧ ¬ ghostContact (stateAtUpdate s inp keycode))) := by
  by_cases hc : ghostContact (stateAtUpdate s inp keycode)
  · have hflags := update_flags_of_contact _ hc
    rw [runIteration_keyPress_of_game_over s inp keycode hev hflags.1]
    refine ⟨hflags.1, ?_⟩
    simp [hflags.2, hc]
  · by_cases hf : (updateFood (stateAtUpdate s inp keycode)).food_ = []
    · have hflags := update_flags_of_empty _ hc hf
      rw [runIteration_keyPress_of_game_over s inp keycode hev hflags.1]
      refine ⟨hflags.1, ?_⟩
      simp [hflags.2, hc, hf]
    · have hflags := update_flags_of_quiet _ hc hf
      have hover : (update (stateAtUpdate s inp keycode)).game_over = false := by
        rw [hflags.1]
        exact stateAtUpdate_of_playing_game_over s inp keycode hplaying
      have hout : isPlayerWithinBounds (update (stateAtUpdate s inp keycode)) inp.geometry
          = false := by
        unfold isPlayerWithinBounds
        rw [update_player]
        simp [hx]
      rw [runIteration_keyPress s inp keycode hev]
      simp [hover, hout, hf]

/-- Witness for C5 (amended): the player at (0, 50) steps left while food remains at
(300, 300); the iteration ends Lost. -/
theorem bounds_exit_ends_game_witness :
    edgeState.game_over = false
      ∧ (runIteration edgeState
          (quietInputs (some (Event.keyPress KEY_LEFT)))).game_over = true
      ∧ ((runIteration edgeState
          (quietInputs (some (Event.keyPress KEY_LEFT)))).game_won = true ↔
          ((updateFood (stateAtUpdate edgeState
              (quietInputs (some (Event.keyPress KEY_LEFT))) KEY_LEFT)).food_ = []
            ∧ ¬ ghostContact (stateAtUpdate
              edgeState
              (quietInputs (some (Event.keyPress KEY_LEFT))) KEY_LEFT))) :=
  ⟨by decide,
    bounds_exit_ends_game edgeState
      (quietInputs (some (Event.keyPress KEY_LEFT))) KEY_LEFT
      (by decide) rfl (Or.inr (Or.inr (Or.inl rfl))) (by decide)⟩

/-! ## Restart -/

theorem createFood_length (rnd : Nat → Int) : (createFood rnd).length = 10 := by
  simp [createFood]

theorem createGhosts_length (rnd clock : Nat → Int) : (createGhosts rnd clock).length = 10 := by
  simp [createGhosts]

theorem foodContact_iff_any (s : Game) :
    foodContact s ↔
      s.food_.any (fun f => rectangleIntersect s.player_.bounds f.bounds) = true := by
  simp [foodContact, List.any_eq_true]

/-- The food step removes one food when some food touches the player, none otherwise. -/
theorem updateFood_length (s : Game) :
    (updateFood s).food_.length = if foodContact s then s.food_.length - 1 else s.food_.length := by
  unfold updateFood
  simp only [List.length_eraseP, foodContact_iff_any]

/-- Handling the Restart key in a finished game is `resetGame` followed by `update`. -/
theorem handleEvent_restart (s : Game) (rnd clock : Nat → Int) (hover : s.game_over = true) :
    handleEvent s (Event.keyPress KEY_SPACEBAR) rnd clock = update (resetGame s rnd clock) := by
  simp [handleEvent, keySwitch, hover, KEY_SPACEBAR, KEY_UP, KEY_DOWN, KEY_LEFT, KEY_RIGHT]

/-- C6 (as stated, fails on the code): Restart in a lost game when the values of
`std::rand()` put the first food and the first ghost at (10, 10), where the player is
placed. The `update` that follows the reset eats that food and loses the game again. -/
theorem restart_can_lose_at_once :
    outsideLostState.game_over = true
      ∧ (handleEvent outsideLostState
          (Event.keyPress KEY_SPACEBAR) spawnOnPlayer (fun _ => 0)).food_.length = 9
      ∧ (handleEvent outsideLostState
          (Event.keyPress KEY_SPACEBAR) spawnOnPlayer (fun _ => 0)).game_over = true
      ∧ (handleEvent outsideLostState
          (Event.keyPress KEY_SPACEBAR) spawnOnPlayer (fun _ => 0)).game_won = false := by
  decide

/-- C6 (amended): after `handleEvent` processes the Restart key in a finished game, the
player is at (10, 10), there are exactly 10 ghosts and `game_won = false`; the food count
is 10 when no spawned food touches the player and 9 when one does; and `game_over` is
false (the state is Playing) exactly when no spawned ghost touches the player. -/
theorem restart_postcondition (s : Game) (rnd clock : Nat → Int) (hover : s.game_over = true) :
    (handleEvent s (Event.keyPress KEY_SPACEBAR) rnd clock).player_.position = ⟨10, 10⟩
      ∧ (handleEvent s (Event.keyPress KEY_SPACEBAR) rnd clock).ghosts_.length = 10
      ∧ (handleEvent s (Event.keyPress KEY_SPACEBAR) rnd clock).game_won = false
      ∧ (¬ foodContact (resetGame s rnd clock) →
          (handleEvent s (Event.keyPress KEY_SPACEBAR) rnd clock).food_.length = 10)
      ∧ (foodContact (resetGame s rnd clock) →
          (handleEvent s (Event.keyPress KEY_SPACEBAR) rnd clock).food_.length = 9)
      ∧ ((handleEvent s (Event.keyPress KEY_SPACEBAR) rnd clock).game_over = false ↔
          ¬ ghostContact (resetGame s rnd clock)) := by
  rw [handleEvent_restart s rnd clock hover]
  have hlen : (resetGame s rnd clock).food_.length = 10 := createFood_length rnd
  have hfood := updateFood_length (resetGame s rnd clock)
  have hne : (updateFood (resetGame s rnd clock)).food_ ≠ [] := by
    intro h
    rw [h, hlen] at hfood
    split at hfood <;> simp at hfood
  refine ⟨?_, ?_, ?_, ?_, ?_, ?_⟩
  · rw [update_player]
    rfl
  · rw [update_ghosts]
    exact createGhosts_length (fun i => rnd (i + 20)) clock
  · by_cases hc : ghostContact (resetGame s rnd clock)
    · exact (update_flags_of_contact _ hc).2
    · rw [(update_flags_of_quiet _ hc hne).2]
      rfl
  · intro hno
    rw [update_food, hfood, if_neg hno, hlen]
  · intro hyes
    rw [update_food, hfood, if_pos hyes, hlen]
  · by_cases hc : ghostContact (resetGame s rnd clock)
    · simp [(update_flags_of_contact _ hc).1, hc]
    · rw [(update_flags_of_quiet _ hc hne).1]
      simp only [hc, not_false_eq_true, iff_true]
      rfl

/-- Witness for C6 (amended): Restart in a lost game when `std::rand()` returns 405
throughout, so that everything spawns at (400, 400), away from the player. -/
theorem restart_postcondition_witness :
    outsideLostState.game_over = true
      ∧ ¬ foodContact (resetGame outsideLostState (fun _ => 405) (fun _ => 0))
      ∧ (handleEvent outsideLostState (Event.keyPress KEY_SPACEBAR)
          (fun _ => 405) (fun _ => 0)).food_.length = 10
      ∧ (handleEvent outsideLostState (Event.keyPress KEY_SPACEBAR)
          (fun _ => 405) (fun _ => 0)).game_over = false :=
  ⟨by decide, by decide,
    (restart_postcondition outsideLostState (fun _ => 405) (fun _ => 0)
      (by decide)).2.2.2.1 (by decide),
    (restart_postcondition outsideLostState (fun _ => 405) (fun _ => 0)
      (by decide)).2.2.2.2.2.mpr (by decide)⟩

/-! ## Finished games and unrecognized keys -/

theorem ghostPhase_of_game_over (s : Game) (ticks : Nat → GhostTick)
    (hover : s.game_over = true) : ghostPhase s ticks = s := by
  simp [ghostPhase, hover]

/-- In a finished game the loop body changes nothing when no event is pending or the
event is not a key press. -/
theorem finished_game_without_keypress (s : Game) (inp : Inputs) (hover : s.game_over = true)
    (hev : inp.event = none ∨ inp.event = some Event.expose ∨ inp.event = some Event.other) :
    runIteration s inp = s := by
  unfold runIteration
  rw [ghostPhase_of_game_over s _ hover]
  rcases hev with h | h | h <;> simp [h, handleEvent, hover]

/-- In a finished game the `switch` keeps player, food and ghosts for every key but
Restart. -/
theorem keySwitch_of_game_over (s : Game) (keycode : Nat) (rnd clock : Nat → Int)
    (hover : s.game_over = true) (hk : keycode ≠ KEY_SPACEBAR) :
    (keySwitch s keycode rnd clock).player_ = s.player_
      ∧ (keySwitch s keycode rnd clock).ghosts_ = s.ghosts_
      ∧ (keySwitch s keycode rnd clock).food_ = s.food_ := by
  unfold keySwitch
  simp only [hover, hk, if_false, Bool.not_true, Bool.false_eq_true]
  repeat (first | exact ⟨rfl, rfl, rfl⟩ | split)

/-- In a finished game the loop body keeps the player and the ghosts in place, whatever
the event, unless it is a press of the Restart key. -/
theorem finished_game_keeps_player_and_ghosts (s : Game) (inp : Inputs)
    (hover : s.game_over = true)
    (hev : inp.event ≠ some (Event.keyPress KEY_SPACEBAR)) :
    (runIteration s inp).player_ = s.player_ ∧ (runIteration s inp).ghosts_ = s.ghosts_ := by
  cases hi : inp.event with
  | none => rw [finished_game_without_keypress s inp hover (Or.inl hi)]; exact ⟨rfl, rfl⟩
  | some ev =>
    cases ev with
    | expose =>
      rw [finished_game_without_keypress s inp hover (Or.inr (Or.inl hi))]; exact ⟨rfl, rfl⟩
    | other =>
      rw [finished_game_without_keypress s inp hover (Or.inr (Or.inr hi))]; exact ⟨rfl, rfl⟩
    | keyPress keycode =>
      have hk : keycode ≠ KEY_SPACEBAR := by
        intro h
        rw [h] at hi
        exact hev hi
      have hsw := keySwitch_of_game_over (ghostPhase s inp.ghost_ticks) keycode inp.spawn_rnd
        inp.spawn_clock (by rw [ghostPhase_game_over]; exact hover) hk
      rw [ghostPhase_of_game_over s _ hover] at hsw
      rw [runIteration_keyPress s inp keycode hi]
      have hp := update_player (stateAtUpdate s inp keycode)
      have hg := update_ghosts (stateAtUpdate s inp keycode)
      unfold stateAtUpdate at hp hg ⊢
      rw [ghostPhase_of_game_over s _ hover] at hp hg ⊢
      split
      · exact ⟨hp.trans hsw.1, hg.trans hsw.2.1⟩
      · exact ⟨hp.trans hsw.1, hg.trans hsw.2.1⟩

/-- C7 (fails on the code): a lost game, the player at (20, 10) next to the ghost at
(30, 10) and to the food at (20, 20). A press of key 38 runs `update`, which removes that
food: the food collection changes although the game is over. -/
theorem finished_game_keypress_eats_food :
    caughtNearFoodState.game_over = true
      ∧ (runIteration
          caughtNearFoodState
          (quietInputs (some (Event.keyPress 38)))).food_ = [foodAt ⟨300, 300⟩] := by
  decide

/-- C8 (fails on the code): a game lost by leaving the arena, the player at (-10, 50)
touching the last food at (0, 60), no ghost near. A press of key 38 runs `update`, which
eats the food and sets `game_won`: Lost becomes Won without a Restart. -/
theorem lost_becomes_won_on_keypress :
    outsideNearFoodState.game_over = true
      ∧ outsideNearFoodState.game_won = false
      ∧ (runIteration outsideNearFoodState
          (quietInputs (some (Event.keyPress 38)))).game_over = true
      ∧ (runIteration outsideNearFoodState
          (quietInputs (some (Event.keyPress 38)))).game_won = true := by
  decide

/-- The `switch` does nothing for a key code it does not list. -/
theorem keySwitch_unrecognized (s : Game) (keycode : Nat) (rnd clock : Nat → Int)
    (hk : keycode ≠ 9 ∧ keycode ≠ 65 ∧ keycode ≠ 111 ∧ keycode ≠ 113 ∧ keycode ≠ 114
      ∧ keycode ≠ 116) :
    keySwitch s keycode rnd clock = s := by
  obtain ⟨h9, h65, h111, h113, h114, h116⟩ := hk
  simp [keySwitch, KEY_ESCAPE, KEY_SPACEBAR, KEY_UP, KEY_DOWN, KEY_LEFT, KEY_RIGHT,
    h9, h65, h111, h113, h114, h116]

/-- The food step changes nothing when no food touches the player. -/
theorem updateFood_eq_self (s : Game) (hfood : ¬ foodContact s) : updateFood s = s := by
  unfold updateFood
  have h : s.food_.eraseP (fun f => rectangleIntersect s.player_.bounds f.bounds) = s.food_ := by
    apply List.eraseP_of_forall_not
    intro f hf hcontact
    exact hfood ⟨f, hf, hcontact⟩
  rw [h]

/-- The method `update` changes nothing when food is left and nothing touches the player. -/
theorem update_eq_self (s : Game) (hfood : ¬ foodContact s) (hghost : ¬ ghostContact s)
    (hne : s.food_ ≠ []) : update s = s := by
  have hany : s.ghosts_.any (fun g => rectangleIntersect s.player_.bounds g.bounds) = false := by
    rw [ghostContact_iff_any] at hghost
    simpa using hghost
  have hemp : s.food_.isEmpty = false := by
    cases hf : s.food_ with
    | nil => exact absurd hf hne
    | cons a l => rfl
  unfold update
  rw [updateFood_eq_self s hfood]
  simp [hemp, hany]

/-- C9 (as stated, fails on the code): the game as constructed when the values of
`std::rand()` put the first food and the first ghost at (10, 10), on the player. Handling
the unlisted key 38 runs `update`: that food is eaten and the game is lost. -/
theorem unrecognized_key_changes_state :
    (Game.ctor spawnOnPlayer (fun _ => 0)).food_.length = 10
      ∧ (Game.ctor spawnOnPlayer (fun _ => 0)).game_over = false
      ∧ (handleEvent (Game.ctor spawnOnPlayer (fun _ => 0)) (Event.keyPress 38)
          (fun _ => 0) (fun _ => 0)).food_.length = 9
      ∧ (handleEvent (Game.ctor spawnOnPlayer (fun _ => 0)) (Event.keyPress 38)
          (fun _ => 0) (fun _ => 0)).game_over = true := by
  decide

/-- C9 (amended): for a key code other than 9, 65, 111, 113, 114 and 116, `handleEvent`
leaves the player, the ghosts, `is_running_` and the redraw requests unchanged in every
state; in a running game its result is that of `update` alone; and the whole state is
unchanged when food is left and neither a food nor a ghost touches the player. -/
theorem unrecognized_key_only_updates (s : Game) (keycode : Nat) (rnd clock : Nat → Int)
    (hk : keycode ≠ 9 ∧ keycode ≠ 65 ∧ keycode ≠ 111 ∧ keycode ≠ 113 ∧ keycode ≠ 114
      ∧ keycode ≠ 116) :
    (handleEvent s (Event.keyPress keycode) rnd clock).player_ = s.player_
      ∧ (handleEvent s (Event.keyPress keycode) rnd clock).ghosts_ = s.ghosts_
      ∧ (handleEvent s (Event.keyPress keycode) rnd clock).is_running_ = s.is_running_
      ∧ (handleEvent s (Event.keyPress keycode) rnd clock).redraw_count = s.redraw_count
      ∧ (s.game_over = false → handleEvent s (Event.keyPress keycode) rnd clock = update s)
      ∧ (¬ foodContact s → ¬ ghostContact s → s.food_ ≠ [] →
          handleEvent s (Event.keyPress keycode) rnd clock = s) := by
  have h : handleEvent s (Event.keyPress keycode) rnd clock = update s := by
    simp only [handleEvent, keySwitch_unrecognized s keycode rnd clock hk]
  rw [h]
  exact ⟨update_player s, update_ghosts s, update_is_running s, update_redraw_count s,
    fun _ => rfl, update_eq_self s⟩

/-- Witness for C9 (amended): key 38 in a running game with the player at (10, 10), one
food at (300, 300) and the ghosts far away; the state is unchanged. -/
theorem unrecognized_key_only_updates_witness :
    ((38 : Nat) ≠ 9 ∧ (38 : Nat) ≠ 65 ∧ (38 : Nat) ≠ 111 ∧ (38 : Nat) ≠ 113 ∧ (38 : Nat) ≠ 114
        ∧ (38 : Nat) ≠ 116)
      ∧ handleEvent calmState (Event.keyPress 38)
          (fun _ => 0) (fun _ => 0) = calmState :=
  ⟨by decide,
    (unrecognized_key_only_updates calmState 38
      (fun _ => 0) (fun _ => 0) (by decide)).2.2.2.2.2 (by decide) (by decide) (by decide)⟩

/-- C10 (fails on the code): the player at (10, 10) touches the food at (10, 10) and the
food at (20, 10). `update` erases only the first food found; the food at (20, 10) stays
in the collection and still touches the player. -/
theorem update_leaves_touched_food :
    (update twoFoodState).food_
        = [foodAt ⟨20, 10⟩]
      ∧ rectangleIntersect
          (update twoFoodState).player_.bounds
          (foodAt ⟨20, 10⟩).bounds = true := by
  decide

/-! ## Geometry of the entities -/

/-- C18: `rectangleIntersect` never reports a false overlap. When it returns true there is
an integer point (px, py) in the closed regions of both rectangles. -/
theorem rectangleIntersect_sound (r1 r2 : Rect) (h : rectangleIntersect r1 r2 = true) :
    ∃ px py : Int,
      (r1.tl.x ≤ px ∧ px ≤ r1.br.x ∧ r1.tl.y ≤ py ∧ py ≤ r1.br.y)
        ∧ (r2.tl.x ≤ px ∧ px ≤ r2.br.x ∧ r2.tl.y ≤ py ∧ py ≤ r2.br.y) := by
  have hm := ((rectangleIntersect_eq_true_iff r1 r2).mp h).1
  have h1 := r1.tl_le_br
  have h2 := r2.tl_le_br
  unfold regionsMeet at hm
  refine ⟨max r1.tl.x r2.tl.x, max r1.tl.y r2.tl.y, ?_⟩
  generalize r1.tl.x = a1 at *
  generalize r1.tl.y = c1 at *
  generalize r1.br.x = b1 at *
  generalize r1.br.y = d1 at *
  generalize r2.tl.x = a2 at *
  generalize r2.tl.y = c2 at *
  generalize r2.br.x = b2 at *
  generalize r2.br.y = d2 at *
  omega

/-- Witness for C18: two 10 by 10 rectangles that share the single corner point (10, 10). -/
theorem rectangleIntersect_sound_witness :
    rectangleIntersect ⟨0, 0, 10, 10⟩ ⟨10, 10, 10, 10⟩ = true
      ∧ ∃ px py : Int,
          ((Rect.mk 0 0 10 10).tl.x ≤ px ∧ px ≤ (Rect.mk 0 0 10 10).br.x
              ∧ (Rect.mk 0 0 10 10).tl.y ≤ py ∧ py ≤ (Rect.mk 0 0 10 10).br.y)
            ∧ ((Rect.mk 10 10 10 10).tl.x ≤ px ∧ px ≤ (Rect.mk 10 10 10 10).br.x
              ∧ (Rect.mk 10 10 10 10).tl.y ≤ py ∧ py ≤ (Rect.mk 10 10 10 10).br.y) :=
  ⟨by decide, rectangleIntersect_sound ⟨0, 0, 10, 10⟩ ⟨10, 10, 10, 10⟩ (by decide)⟩

/-- Two 10 by 10 rectangles: the test in terms of the two positions. -/
theorem rectangleIntersect_ten_iff (x1 y1 x2 y2 : Int) :
    rectangleIntersect ⟨x1, y1, 10, 10⟩ ⟨x2, y2, 10, 10⟩ = true
      ↔ (x1 - x2 ≤ 10 ∧ x2 - x1 ≤ 10) ∧ (y1 - y2 ≤ 10 ∧ y2 - y1 ≤ 10) := by
  rw [rectangleIntersect_eq_true_iff]
  simp only [regionsMeet, strictlyEncloses, Rect.tl, Rect.br]
  omega

/-- Two 10 by 10 rectangles: the test in terms of the distances between the positions. -/
theorem rectangleIntersect_ten_abs_iff (x1 y1 x2 y2 : Int) :
    rectangleIntersect ⟨x1, y1, 10, 10⟩ ⟨x2, y2, 10, 10⟩ = true
      ↔ |x1 - x2| ≤ 10 ∧ |y1 - y2| ≤ 10 := by
  rw [rectangleIntersect_ten_iff, abs_le, abs_le]
  omega

/-- The bounds of two entities of size 10 by 10 intersect exactly when their positions
differ by at most 10 on both axes. -/
theorem bounds_intersect_ten_iff (a b : Character) (ha : a.size = ⟨10, 10⟩)
    (hb : b.size = ⟨10, 10⟩) :
    rectangleIntersect a.bounds b.bounds = true
      ↔ |a.position.x - b.position.x| ≤ 10 ∧ |a.position.y - b.position.y| ≤ 10 := by
  have h := rectangleIntersect_ten_abs_iff a.position.x a.position.y b.position.x
    b.position.y
  simpa [Character.bounds, ha, hb] using h

/-- C19: collision between two 10 by 10 entities. The test is true exactly when the
positions differ by at most 10 on both axes; so it is true for the four edge-adjacent and
the four diagonally adjacent grid cells, and for an entity at the same position. -/
theorem rectangleIntersect_ten_by_ten (x1 y1 x2 y2 : Int) :
    (rectangleIntersect ⟨x1, y1, 10, 10⟩ ⟨x2, y2, 10, 10⟩ = true
        ↔ |x1 - x2| ≤ 10 ∧ |y1 - y2| ≤ 10)
      ∧ (rectangleIntersect ⟨x1, y1, 10, 10⟩ ⟨x1 + 10, y1, 10, 10⟩ = true
        ∧ rectangleIntersect ⟨x1, y1, 10, 10⟩ ⟨x1 - 10, y1, 10, 10⟩ = true
        ∧ rectangleIntersect ⟨x1, y1, 10, 10⟩ ⟨x1, y1 + 10, 10, 10⟩ = true
        ∧ rectangleIntersect ⟨x1, y1, 10, 10⟩ ⟨x1, y1 - 10, 10, 10⟩ = true)
      ∧ (rectangleIntersect ⟨x1, y1, 10, 10⟩ ⟨x1 + 10, y1 + 10, 10, 10⟩ = true
        ∧ rectangleIntersect ⟨x1, y1, 10, 10⟩ ⟨x1 + 10, y1 - 10, 10, 10⟩ = true
        ∧ rectangleIntersect ⟨x1, y1, 10, 10⟩ ⟨x1 - 10, y1 + 10, 10, 10⟩ = true
        ∧ rectangleIntersect ⟨x1, y1, 10, 10⟩ ⟨x1 - 10, y1 - 10, 10, 10⟩ = true)
      ∧ rectangleIntersect ⟨x1, y1, 10, 10⟩ ⟨x1, y1, 10, 10⟩ = true := by
  refine ⟨?_, ⟨?_, ?_, ?_, ?_⟩, ⟨?_, ?_, ?_, ?_⟩, ?_⟩
  · exact rectangleIntersect_ten_abs_iff x1 y1 x2 y2
  all_goals
    rw [rectangleIntersect_ten_iff]
    omega

/-! ## Ghosts -/

theorem tmod_four_cases (rnd : Int) (hrnd : 0 ≤ rnd) :
    rnd.tmod 4 = 0 ∨ rnd.tmod 4 = 1 ∨ rnd.tmod 4 = 2 ∨ rnd.tmod 4 = 3 := by
  rw [Int.tmod_eq_emod hrnd (by decide)]
  omega

/-- What `move` leaves alone, and the timestamp it sets. -/
theorem Ghost.move_frame (g : Ghost) (rnd now : Int) :
    (g.move rnd now).size = g.size ∧ (g.move rnd now).color = g.color
      ∧ (g.move rnd now).move_time_ns_ = g.move_time_ns_
      ∧ (g.move rnd now).time_at_last_move_ns_ = now := by
  unfold Ghost.move
  dsimp only
  repeat (first | exact ⟨rfl, rfl, rfl, rfl⟩ | split)

/-- The position after `move`, by direction. -/
theorem Ghost.move_position (g : Ghost) (rnd now : Int) :
    (rnd.tmod 4 = 0 → (g.move rnd now).position = ⟨g.position.x, g.position.y - 10⟩)
      ∧ (rnd.tmod 4 = 1 → (g.move rnd now).position = ⟨g.position.x, g.position.y + 10⟩)
      ∧ (rnd.tmod 4 = 2 → (g.move rnd now).position = ⟨g.position.x - 10, g.position.y⟩)
      ∧ (rnd.tmod 4 = 3 → (g.move rnd now).position = ⟨g.position.x + 10, g.position.y⟩) := by
  unfold Ghost.move
  refine ⟨?_, ?_, ?_, ?_⟩ <;> intro h <;> simp [h]

/-- For a non-negative value of `std::rand()`, `move` is one step on the grid. -/
theorem Ghost.move_oneGridStep (g : Ghost) (rnd now : Int) (hrnd : 0 ≤ rnd) :
    oneGridStep g.position (g.move rnd now).position := by
  have hpos := Ghost.move_position g rnd now
  unfold oneGridStep
  rcases tmod_four_cases rnd hrnd with h | h | h | h
  · rw [hpos.1 h]
    simp
  · rw [hpos.2.1 h]
    simp
  · rw [hpos.2.2.1 h]
    simp
  · rw [hpos.2.2.2 h]
    simp

/-- C14: the timing gate of a ghost with the interval of 250,000,000 ns that every ghost
has. `isTimeToMove` is true exactly when the clock reading minus the time of the last move
is at least 250,000,000; so after a `move` that read the clock at `t`, a query at `u` is
false for `t ≤ u < t + 250,000,000` and true for `u ≥ t + 250,000,000`. -/
theorem ghost_timing_gate (g : Ghost) (hinterval : g.move_time_ns_ = 250000000) :
    (∀ now : Int, g.isTimeToMove now = true ↔ now - g.time_at_last_move_ns_ ≥ 250000000)
      ∧ (∀ rnd t u : Int, t ≤ u → u < t + 250000000 →
          (g.move rnd t).isTimeToMove u = false)
      ∧ (∀ rnd t u : Int, u ≥ t + 250000000 → (g.move rnd t).isTimeToMove u = true) := by
  refine ⟨?_, ?_, ?_⟩
  · intro now
    simp [Ghost.isTimeToMove, hinterval]
  · intro rnd t u _ hlt
    have hf := Ghost.move_frame g rnd t
    simp only [Ghost.isTimeToMove, hf.2.2.1, hf.2.2.2, hinterval, decide_eq_false_iff_not]
    omega
  · intro rnd t u hge
    have hf := Ghost.move_frame g rnd t
    simp only [Ghost.isTimeToMove, hf.2.2.1, hf.2.2.2, hinterval, decide_eq_true_eq]
    omega

/-- Witness for C14: a ghost constructed at clock reading 0 that moves at reading 1000 is
not due at 250,000,999 and is due at 250,001,000. -/
theorem ghost_timing_gate_witness :
    (Ghost.ctor 0).move_time_ns_ = 250000000
      ∧ ((Ghost.ctor 0).move 3 1000).isTimeToMove 250000999 = false
      ∧ ((Ghost.ctor 0).move 3 1000).isTimeToMove 250001000 = true :=
  ⟨rfl,
    (ghost_timing_gate (Ghost.ctor 0) rfl).2.1 3 1000 250000999 (by decide) (by decide),
    (ghost_timing_gate (Ghost.ctor 0) rfl).2.2 3 1000 250001000 (by decide)⟩

/-- C15: `move` is one grid step. For a non-negative value `rnd` of `std::rand()` the
residue `rnd % 4` is 0, 1, 2 or 3 and gives the displacement (0, -10), (0, +10), (-10, 0)
or (+10, 0); so exactly one coordinate changes, by exactly 10; size and colour are
unchanged and the time of the last move becomes the clock reading of the call. -/
theorem ghost_move_one_grid_step (g : Ghost) (rnd now : Int) (hrnd : 0 ≤ rnd) :
    (rnd.tmod 4 = 0 ∨ rnd.tmod 4 = 1 ∨ rnd.tmod 4 = 2 ∨ rnd.tmod 4 = 3)
      ∧ (rnd.tmod 4 = 0 → (g.move rnd now).position = ⟨g.position.x, g.position.y - 10⟩)
      ∧ (rnd.tmod 4 = 1 → (g.move rnd now).position = ⟨g.position.x, g.position.y + 10⟩)
      ∧ (rnd.tmod 4 = 2 → (g.move rnd now).position = ⟨g.position.x - 10, g.position.y⟩)
      ∧ (rnd.tmod 4 = 3 → (g.move rnd now).position = ⟨g.position.x + 10, g.position.y⟩)
      ∧ oneGridStep g.position (g.move rnd now).position
      ∧ (g.move rnd now).size = g.size
      ∧ (g.move rnd now).color = g.color
      ∧ (g.move rnd now).time_at_last_move_ns_ = now := by
  have hpos := Ghost.move_position g rnd now
  have hf := Ghost.move_frame g rnd now
  exact ⟨tmod_four_cases rnd hrnd, hpos.1, hpos.2.1, hpos.2.2.1, hpos.2.2.2,
    Ghost.move_oneGridStep g rnd now hrnd, hf.1, hf.2.1, hf.2.2.2⟩

/-- Witness for C15: the value 7 of `std::rand()` has residue 3 and moves the ghost at
(100, 100) to (110, 100). -/
theorem ghost_move_one_grid_step_witness :
    (0 : Int) ≤ 7
      ∧ ((Ghost.ctor 0).move 7 5).position = ⟨110, 100⟩
      ∧ ((Ghost.ctor 0).move 7 5).time_at_last_move_ns_ = 5 :=
  ⟨by decide,
    (ghost_move_one_grid_step (Ghost.ctor 0) 7 5 (by decide)).2.2.2.2.1 (by decide),
    (ghost_move_one_grid_step (Ghost.ctor 0) 7 5 (by decide)).2.2.2.2.2.2.2.2⟩

/-! ## The method `updateGhosts` -/

theorem updateGhostsLoop_length (gs : List Ghost) (ticks : Nat → GhostTick) :
    (updateGhostsLoop gs ticks).1.length = gs.length := by
  induction gs generalizing ticks with
  | nil => rfl
  | cons g gs ih =>
    unfold updateGhostsLoop
    dsimp only
    split <;> simp [ih]

/-- The ghost at index `i` after the loop: moved when due, untouched otherwise. -/
theorem updateGhostsLoop_getElem? (gs : List Ghost) (ticks : Nat → GhostTick) (i : Nat)
    (g : Ghost) (hg : gs[i]? = some g) :
    (updateGhostsLoop gs ticks).1[i]? =
      some (if g.isTimeToMove (ticks i).now_query then
        g.move (ticks i).rnd (ticks i).now_move else g) := by
  induction gs generalizing ticks i with
  | nil => simp at hg
  | cons g0 gs ih =>
    cases i with
    | zero =>
      simp only [List.getElem?_cons_zero, Option.some.injEq] at hg
      subst hg
      unfold updateGhostsLoop
      dsimp only
      split <;> simp [*]
    | succ j =>
      simp only [List.getElem?_cons_succ] at hg
      have hj := ih (fun k => ticks (k + 1)) j hg
      unfold updateGhostsLoop
      dsimp only
      split <;> simpa using hj

/-- The flag `ghost_moved` after the loop: some ghost was due. -/
theorem updateGhostsLoop_flag (gs : List Ghost) (ticks : Nat → GhostTick) :
    (updateGhostsLoop gs ticks).2 = true ↔
      ∃ (i : Nat) (g : Ghost), gs[i]? = some g ∧ g.isTimeToMove (ticks i).now_query = true := by
  induction gs generalizing ticks with
  | nil => simp [updateGhostsLoop]
  | cons g0 gs ih =>
    unfold updateGhostsLoop
    dsimp only
    by_cases h0 : g0.isTimeToMove (ticks 0).now_query = true
    · simp only [h0, if_true, true_iff]
      exact ⟨0, g0, by simp, h0⟩
    · have hb : g0.isTimeToMove (ticks 0).now_query = false := by
        simpa using h0
      simp only [hb, Bool.false_eq_true, if_false]
      rw [ih]
      constructor
      · rintro ⟨i, g, hg, hdue⟩
        exact ⟨i + 1, g, by simpa using hg, hdue⟩
      · rintro ⟨i, g, hg, hdue⟩
        cases i with
        | zero =>
          simp only [List.getElem?_cons_zero, Option.some.injEq] at hg
          subst hg
          exact absurd hdue h0
        | succ j => exact ⟨j, g, by simpa using hg, hdue⟩

/-- What `updateGhosts` leaves alone. -/
theorem updateGhosts_frame (s : Game) (ticks : Nat → GhostTick) :
    (updateGhosts s ticks).player_ = s.player_
      ∧ (updateGhosts s ticks).food_ = s.food_
      ∧ (updateGhosts s ticks).game_over = s.game_over
      ∧ (updateGhosts s ticks).game_won = s.game_won
      ∧ (updateGhosts s ticks).is_running_ = s.is_running_ :=
  ⟨rfl, rfl, rfl, rfl, rfl⟩

/-- C16: the per-tick ghost update. `updateGhosts` keeps the number and the order of the
ghosts; the ghost at each index is replaced by the result of one `move` when it is due (one
10-unit step for a non-negative value of `std::rand()`) and is left untouched when it is
not; and one redraw is requested when some ghost was due, none otherwise. -/
theorem updateGhosts_per_tick (s : Game) (ticks : Nat → GhostTick) :
    (updateGhosts s ticks).ghosts_.length = s.ghosts_.length
      ∧ (∀ (i : Nat) (g : Ghost), s.ghosts_[i]? = some g →
          g.isTimeToMove (ticks i).now_query = true →
          (updateGhosts s ticks).ghosts_[i]? = some (g.move (ticks i).rnd (ticks i).now_move)
            ∧ (0 ≤ (ticks i).rnd →
                oneGridStep g.position (g.move (ticks i).rnd (ticks i).now_move).position))
      ∧ (∀ (i : Nat) (g : Ghost), s.ghosts_[i]? = some g →
          g.isTimeToMove (ticks i).now_query = false →
          (updateGhosts s ticks).ghosts_[i]? = some g)
      ∧ (ghostDue s ticks → (updateGhosts s ticks).redraw_count = s.redraw_count + 1)
      ∧ (¬ ghostDue s ticks → (updateGhosts s ticks).redraw_count = s.redraw_count) := by
  refine ⟨updateGhostsLoop_length s.ghosts_ ticks, ?_, ?_, ?_, ?_⟩
  · intro i g hg hdue
    refine ⟨?_, Ghost.move_oneGridStep g _ _⟩
    have h := updateGhostsLoop_getElem? s.ghosts_ ticks i g hg
    rw [hdue] at h
    simpa [updateGhosts] using h
  · intro i g hg hdue
    have h := updateGhostsLoop_getElem? s.ghosts_ ticks i g hg
    rw [hdue] at h
    simpa [updateGhosts] using h
  · intro hdue
    have h := (updateGhostsLoop_flag s.ghosts_ ticks).mpr hdue
    simp [updateGhosts, h]
  · intro hdue
    have h : (updateGhostsLoop s.ghosts_ ticks).2 = false := by
      cases hb : (updateGhostsLoop s.ghosts_ ticks).2 with
      | false => rfl
      | true => exact absurd ((updateGhostsLoop_flag s.ghosts_ ticks).mp hb) hdue
    simp [updateGhosts, h]

/-- Witness for C16: in `ambushState` every ghost was last moved at 0 and reads the clock
at 250,000,000; the first ghost moves up from (10, 20) to (10, 10) and one redraw is
requested. -/
theorem updateGhosts_per_tick_witness :
    ambushState.ghosts_[0]? = some (ghostAt ⟨10, 20⟩)
      ∧ (updateGhosts ambushState dueInputs.ghost_ticks).ghosts_[0]?
          = some ((ghostAt ⟨10, 20⟩).move 0 250000000)
      ∧ ((ghostAt ⟨10, 20⟩).move 0 250000000).position = ⟨10, 10⟩
      ∧ (updateGhosts ambushState dueInputs.ghost_ticks).redraw_count
          = ambushState.redraw_count + 1 :=
  ⟨rfl,
    ((updateGhosts_per_tick ambushState dueInputs.ghost_ticks).2.1 0 (ghostAt ⟨10, 20⟩) rfl
      (by decide)).1,
    by decide,
    (updateGhosts_per_tick ambushState dueInputs.ghost_ticks).2.2.2.1
      ⟨0, ghostAt ⟨10, 20⟩, rfl, by decide⟩⟩

/-- C20: ghost movement alone never ends the game. `updateGhosts` leaves the player, the
food, `game_over`, `game_won` and `is_running_` unchanged; hence an iteration of the loop of
`run` without a pending event leaves a running game running, with the player and the food
as they were, wherever the ghosts have moved. -/
theorem updateGhosts_never_ends_game (s : Game) (inp : Inputs) :
    ((updateGhosts s inp.ghost_ticks).player_ = s.player_
        ∧ (updateGhosts s inp.ghost_ticks).food_ = s.food_
        ∧ (updateGhosts s inp.ghost_ticks).game_over = s.game_over
        ∧ (updateGhosts s inp.ghost_ticks).game_won = s.game_won
        ∧ (updateGhosts s inp.ghost_ticks).is_running_ = s.is_running_)
      ∧ (inp.event = none → s.game_over = false →
          (runIteration s inp).game_over = false
            ∧ (runIteration s inp).game_won = s.game_won
            ∧ (runIteration s inp).is_running_ = s.is_running_
            ∧ (runIteration s inp).player_ = s.player_
            ∧ (runIteration s inp).food_ = s.food_
            ∧ (runIteration s inp).ghosts_ = (updateGhosts s inp.ghost_ticks).ghosts_) := by
  refine ⟨updateGhosts_frame s inp.ghost_ticks, ?_⟩
  intro hev hplaying
  have hrun : runIteration s inp = updateGhosts s inp.ghost_ticks := by
    simp [runIteration, hev, ghostPhase, hplaying]
  rw [hrun]
  exact ⟨hplaying, rfl, rfl, rfl, rfl, rfl⟩

/-- Witness for C20: in `ambushState` the ghost below the player moves up onto the
position (10, 10) of the player, no event is pending, and the game is still running. -/
theorem updateGhosts_never_ends_game_witness :
    dueInputs.event = none ∧ ambushState.game_over = false
      ∧ (runIteration ambushState dueInputs).ghosts_.map (fun g => g.position)
          = ⟨10, 10⟩ :: List.replicate 9 ⟨500, 490⟩
      ∧ (runIteration ambushState dueInputs).player_.position = ⟨10, 10⟩
      ∧ (runIteration ambushState dueInputs).game_over = false :=
  ⟨rfl, rfl, by decide,
    by rw [((updateGhosts_never_ends_game ambushState dueInputs).2 rfl rfl).2.2.2.1]; decide,
    ((updateGhosts_never_ends_game ambushState dueInputs).2 rfl rfl).1⟩

/-! ## Food count and directional keys -/

theorem keySwitch_of_playing_food (s : Game) (keycode : Nat) (rnd clock : Nat → Int)
    (h : s.game_over = false) : (keySwitch s keycode rnd clock).food_ = s.food_ := by
  unfold keySwitch
  simp only [h]
  repeat (first | rfl | split)

theorem ghostPhase_food (s : Game) (ticks : Nat → GhostTick) :
    (ghostPhase s ticks).food_ = s.food_ := by
  unfold ghostPhase
  split <;> rfl

theorem updateFood_length_le (s : Game) : (updateFood s).food_.length ≤ s.food_.length := by
  rw [updateFood_length]
  split <;> omega

/-- The loop body changes the food only through the event handler. -/
theorem runIteration_food (s : Game) (inp : Inputs) :
    (runIteration s inp).food_ =
      match inp.event with
      | none => s.food_
      | some ev =>
        (handleEvent (ghostPhase s inp.ghost_ticks) ev inp.spawn_rnd inp.spawn_clock).food_ := by
  unfold runIteration
  cases inp.event with
  | none => exact ghostPhase_food s _
  | some ev =>
    dsimp only
    split <;> rfl

/-- C11: food monotonicity. In a running game one iteration of the loop of `run` never
increases the number of food items, whatever the event, the clock readings and the values
of `std::rand()`. -/
theorem food_count_never_grows (s : Game) (inp : Inputs) (hplaying : s.game_over = false) :
    (runIteration s inp).food_.length ≤ s.food_.length := by
  rw [runIteration_food]
  cases inp.event with
  | none => exact Nat.le_refl _
  | some ev =>
    cases ev with
    | expose => simp [handleEvent, ghostPhase_food]
    | other => simp [handleEvent, ghostPhase_food]
    | keyPress keycode =>
      have hg : (ghostPhase s inp.ghost_ticks).game_over = false := by
        rw [ghostPhase_game_over]
        exact hplaying
      have hk := keySwitch_of_playing_food (ghostPhase s inp.ghost_ticks) keycode
        inp.spawn_rnd inp.spawn_clock hg
      have hle := updateFood_length_le
        (keySwitch (ghostPhase s inp.ghost_ticks) keycode inp.spawn_rnd inp.spawn_clock)
      simp only [handleEvent, update_food]
      rw [hk, ghostPhase_food] at hle
      exact hle

/-- Witness for C11: in `twoFoodState` a Right press eats one of the two foods. -/
theorem food_count_never_grows_witness :
    twoFoodState.game_over = false
      ∧ (runIteration twoFoodState
          (quietInputs (some (Event.keyPress KEY_RIGHT)))).food_.length
        ≤ twoFoodState.food_.length :=
  ⟨rfl,
    food_count_never_grows twoFoodState (quietInputs (some (Event.keyPress KEY_RIGHT))) rfl⟩

/-- C12: directional input. In a running game `handleEvent` moves the player by 10 for the
key codes 111 (up), 116 (down), 113 (left) and 114 (right) and requests one redraw; in a
finished game the same key codes leave the player where it is. -/
theorem directional_input (s : Game) (rnd clock : Nat → Int) :
    (s.game_over = false →
        ((handleEvent s (Event.keyPress 111) rnd clock).player_.position
            = ⟨s.player_.position.x, s.player_.position.y - 10⟩
          ∧ (handleEvent s (Event.keyPress 111) rnd clock).redraw_count = s.redraw_count + 1)
        ∧ ((handleEvent s (Event.keyPress 116) rnd clock).player_.position
            = ⟨s.player_.position.x, s.player_.position.y + 10⟩
          ∧ (handleEvent s (Event.keyPress 116) rnd clock).redraw_count = s.redraw_count + 1)
        ∧ ((handleEvent s (Event.keyPress 113) rnd clock).player_.position
            = ⟨s.player_.position.x - 10, s.player_.position.y⟩
          ∧ (handleEvent s (Event.keyPress 113) rnd clock).redraw_count = s.redraw_count + 1)
        ∧ ((handleEvent s (Event.keyPress 114) rnd clock).player_.position
            = ⟨s.player_.position.x + 10, s.player_.position.y⟩
          ∧ (handleEvent s (Event.keyPress 114) rnd clock).redraw_count
            = s.redraw_count + 1))
      ∧ (s.game_over = true →
        (handleEvent s (Event.keyPress 111) rnd clock).player_.position = s.player_.position
          ∧ (handleEvent s (Event.keyPress 116) rnd clock).player_.position
            = s.player_.position
          ∧ (handleEvent s (Event.keyPress 113) rnd clock).player_.position
            = s.player_.position
          ∧ (handleEvent s (Event.keyPress 114) rnd clock).player_.position
            = s.player_.position) := by
  constructor
  · intro h
    simp [handleEvent, update_player, update_redraw_count, keySwitch, KEY_UP, KEY_DOWN,
      KEY_LEFT, KEY_RIGHT, h]
  · intro h
    simp [handleEvent, update_player, keySwitch, KEY_UP, KEY_DOWN, KEY_LEFT, KEY_RIGHT, h]

/-- Witness for C12: in `calmState` the Up key moves the player from (10, 10) to (10, 0);
in `outsideLostState` it leaves the player at (-10, 50). -/
theorem directional_input_witness :
    calmState.game_over = false
      ∧ (handleEvent calmState (Event.keyPress 111) (fun _ => 0) (fun _ => 0)).player_.position
        = ⟨calmState.player_.position.x, calmState.player_.position.y - 10⟩
      ∧ outsideLostState.game_over = true
      ∧ (handleEvent outsideLostState (Event.keyPress 111) (fun _ => 0)
          (fun _ => 0)).player_.position = outsideLostState.player_.position :=
  ⟨rfl,
    ((directional_input calmState (fun _ => 0) (fun _ => 0)).1 rfl).1.1,
    rfl,
    ((directional_input outsideLostState (fun _ => 0) (fun _ => 0)).2 rfl).1⟩

/-! ## Spawning -/

theorem spawn_coord_dvd (r m : Int) : (10 : Int) ∣ (r.tmod m).tdiv 10 * 10 :=
  Dvd.intro_left _ rfl

theorem spawn_coord_x (r : Int) (h : 0 ≤ r) :
    0 ≤ (r.tmod 800).tdiv 10 * 10 ∧ (r.tmod 800).tdiv 10 * 10 ≤ 790 := by
  rw [Int.tmod_eq_emod h (by decide),
    Int.tdiv_eq_ediv (Int.emod_nonneg r (by decide)) (by decide)]
  omega

theorem spawn_coord_y (r : Int) (h : 0 ≤ r) :
    0 ≤ (r.tmod 600).tdiv 10 * 10 ∧ (r.tmod 600).tdiv 10 * 10 ≤ 590 := by
  rw [Int.tmod_eq_emod h (by decide),
    Int.tdiv_eq_ediv (Int.emod_nonneg r (by decide)) (by decide)]
  omega

theorem mem_createFood (rnd : Nat → Int) (f : Food) (hf : f ∈ createFood rnd) :
    ∃ i : Nat, f.position = ⟨((rnd (2 * i)).tmod 800).tdiv 10 * 10,
        ((rnd (2 * i + 1)).tmod 600).tdiv 10 * 10⟩ ∧ f.size = ⟨10, 10⟩ := by
  simp only [createFood, List.mem_map, List.mem_range] at hf
  obtain ⟨i, _, rfl⟩ := hf
  exact ⟨i, rfl, rfl⟩

theorem mem_createGhosts (rnd clock : Nat → Int) (g : Ghost)
    (hg : g ∈ createGhosts rnd clock) :
    ∃ i : Nat, g.position = ⟨((rnd (2 * i)).tmod 800).tdiv 10 * 10,
        ((rnd (2 * i + 1)).tmod 600).tdiv 10 * 10⟩ ∧ g.size = ⟨10, 10⟩
      ∧ g.move_time_ns_ = 250000000 := by
  simp only [createGhosts, List.mem_map, List.mem_range] at hg
  obtain ⟨i, _, rfl⟩ := hg
  exact ⟨i, rfl, rfl, rfl⟩

theorem spawnedInArena_of_coords (c : Character) (rx ry : Int) (hx : 0 ≤ rx) (hy : 0 ≤ ry)
    (hpos : c.position = ⟨(rx.tmod 800).tdiv 10 * 10, (ry.tmod 600).tdiv 10 * 10⟩)
    (hsize : c.size = ⟨10, 10⟩) : spawnedInArena c := by
  have h1 := spawn_coord_x rx hx
  have h2 := spawn_coord_y ry hy
  have d1 := spawn_coord_dvd rx 800
  have d2 := spawn_coord_dvd ry 600
  unfold spawnedInArena
  rw [hpos, hsize]
  dsimp only
  generalize (rx.tmod 800).tdiv 10 * 10 = vx at *
  generalize (ry.tmod 600).tdiv 10 * 10 = vy at *
  refine ⟨⟨h1.1, h1.2, d1⟩, ⟨h2.1, h2.2, d2⟩, rfl, ?_, ?_⟩ <;> omega

/-- C17: spawn placement. For non-negative values of `std::rand()`, `createFood` and
`createGhosts` each produce exactly 10 entities, every one of size 10 by 10 at a position
with x in 0, 10, .., 790 and y in 0, 10, .., 590, hence wholly inside the 800 by 600
arena. -/
theorem spawn_placement (rnd clock : Nat → Int) (hrnd : ∀ i : Nat, 0 ≤ rnd i) :
    (createFood rnd).length = 10
      ∧ (createGhosts rnd clock).length = 10
      ∧ (∀ f ∈ createFood rnd, spawnedInArena f)
      ∧ (∀ g ∈ createGhosts rnd clock, spawnedInArena g.toCharacter) := by
  refine ⟨createFood_length rnd, createGhosts_length rnd clock, ?_, ?_⟩
  · intro f hf
    obtain ⟨i, hpos, hsize⟩ := mem_createFood rnd f hf
    exact spawnedInArena_of_coords f _ _ (hrnd _) (hrnd _) hpos hsize
  · intro g hg
    obtain ⟨i, hpos, hsize, _⟩ := mem_createGhosts rnd clock g hg
    exact spawnedInArena_of_coords g.toCharacter _ _ (hrnd _) (hrnd _) hpos hsize

/-- Witness for C17: when `std::rand()` returns 2399 throughout, every food spawns at
(790, 590), the last cell of the arena. -/
theorem spawn_placement_witness :
    (∀ i : Nat, (0 : Int) ≤ (fun _ => 2399) i)
      ∧ (createFood (fun _ => 2399)).map (fun f => f.position)
          = List.replicate 10 ⟨790, 590⟩
      ∧ (∀ f ∈ createFood (fun _ => 2399), spawnedInArena f) :=
  ⟨fun _ => by show (0 : Int) ≤ 2399; decide, by decide,
    (spawn_placement (fun _ => 2399) (fun _ => 0)
      (fun _ => by show (0 : Int) ≤ 2399; decide)).2.2.1⟩

/-! ## Invariants of `run` -/

theorem Ghost.move_onGrid (g : Ghost) (rnd now : Int) (h : onGrid g.position) :
    onGrid (g.move rnd now).position := by
  unfold onGrid at h ⊢
  unfold Ghost.move
  dsimp only
  repeat (first | omega | (dsimp only; omega) | split)

/-- A property of single ghosts that `move` preserves is preserved by the loop of
`updateGhosts`. -/
theorem updateGhostsLoop_forall (P : Ghost → Prop)
    (hmove : ∀ (g : Ghost) (rnd now : Int), P g → P (g.move rnd now))
    (gs : List Ghost) (ticks : Nat → GhostTick) (h : ∀ g ∈ gs, P g) :
    ∀ g ∈ (updateGhostsLoop gs ticks).1, P g := by
  induction gs generalizing ticks with
  | nil => simp [updateGhostsLoop]
  | cons g0 gs ih =>
    have h0 : P g0 := h g0 (List.mem_cons_self g0 gs)
    have hrest := ih (fun i => ticks (i + 1)) (fun g hg => h g (List.mem_cons_of_mem g0 hg))
    unfold updateGhostsLoop
    dsimp only
    intro g hg
    split at hg
    · rcases List.mem_cons.mp hg with rfl | hmem
      · exact hmove g0 _ _ h0
      · exact hrest g hmem
    · rcases List.mem_cons.mp hg with rfl | hmem
      · exact h0
      · exact hrest g hmem

/-- The ghosts after the `switch`: those before it, or freshly created ones. -/
theorem keySwitch_ghosts (s : Game) (keycode : Nat) (rnd clock : Nat → Int) :
    (keySwitch s keycode rnd clock).ghosts_ = s.ghosts_
      ∨ (keySwitch s keycode rnd clock).ghosts_ = createGhosts (fun i => rnd (i + 20)) clock := by
  unfold keySwitch
  repeat (first | exact Or.inl rfl | exact Or.inr rfl | split)

/-- The ghosts after the loop body are those after the `switch` (key press) or those
after the ghost phase (any other case). -/
theorem runIteration_ghosts (s : Game) (inp : Inputs) :
    (runIteration s inp).ghosts_ = (ghostPhase s inp.ghost_ticks).ghosts_
      ∨ ∃ keycode : Nat, (runIteration s inp).ghosts_ =
          (keySwitch (ghostPhase s inp.ghost_ticks) keycode inp.spawn_rnd
            inp.spawn_clock).ghosts_ := by
  unfold runIteration
  cases inp.event with
  | none => exact Or.inl rfl
  | some ev =>
    cases ev with
    | expose =>
      dsimp only [handleEvent]
      split <;> exact Or.inl rfl
    | other =>
      dsimp only [handleEvent]
      split <;> exact Or.inl rfl
    | keyPress keycode =>
      refine Or.inr ⟨keycode, ?_⟩
      dsimp only [handleEvent]
      split
      · exact update_ghosts _
      · exact update_ghosts _

/-- A property of single ghosts that holds at creation and that `move` preserves is
preserved by the loop body. -/
theorem runIteration_ghosts_forall (P : Ghost → Prop)
    (hmove : ∀ (g : Ghost) (rnd now : Int), P g → P (g.move rnd now))
    (hcreate : ∀ (rnd clock : Nat → Int), ∀ g ∈ createGhosts rnd clock, P g)
    (s : Game) (inp : Inputs) (h : ∀ g ∈ s.ghosts_, P g) :
    ∀ g ∈ (runIteration s inp).ghosts_, P g := by
  have hphase : ∀ g ∈ (ghostPhase s inp.ghost_ticks).ghosts_, P g := by
    unfold ghostPhase
    split
    · exact updateGhostsLoop_forall P hmove s.ghosts_ inp.ghost_ticks h
    · exact h
  rcases runIteration_ghosts s inp with hr | ⟨keycode, hr⟩
  · rw [hr]
    exact hphase
  · rw [hr]
    rcases keySwitch_ghosts (ghostPhase s inp.ghost_ticks) keycode inp.spawn_rnd
      inp.spawn_clock with hk | hk
    · rw [hk]
      exact hphase
    · rw [hk]
      exact hcreate _ _

/-- The same for every finite run that starts from the constructed game. -/
theorem run_ghosts_forall (P : Ghost → Prop)
    (hmove : ∀ (g : Ghost) (rnd now : Int), P g → P (g.move rnd now))
    (hcreate : ∀ (rnd clock : Nat → Int), ∀ g ∈ createGhosts rnd clock, P g)
    (s : Game) (inputs : List Inputs) (h : ∀ g ∈ s.ghosts_, P g) :
    ∀ g ∈ (run s inputs).ghosts_, P g := by
  induction inputs generalizing s with
  | nil => exact h
  | cons inp rest ih =>
    unfold run
    split
    · exact ih (runIteration s inp) (runIteration_ghosts_forall P hmove hcreate s inp h)
    · exact h

theorem createGhosts_onGrid (rnd clock : Nat → Int) :
    ∀ g ∈ createGhosts rnd clock, onGrid g.position := by
  intro g hg
  obtain ⟨i, hpos, _, _⟩ := mem_createGhosts rnd clock g hg
  rw [hpos]
  exact ⟨spawn_coord_dvd _ 800, spawn_coord_dvd _ 600⟩

theorem keySwitch_player_onGrid (s : Game) (keycode : Nat) (rnd clock : Nat → Int)
    (h : onGrid s.player_.position) :
    onGrid (keySwitch s keycode rnd clock).player_.position := by
  unfold onGrid at h ⊢
  unfold keySwitch resetGame
  repeat (first | omega | (dsimp only; omega) | split)

theorem runIteration_player_onGrid (s : Game) (inp : Inputs)
    (h : onGrid s.player_.position) : onGrid (runIteration s inp).player_.position := by
  have hphase : (ghostPhase s inp.ghost_ticks).player_ = s.player_ := by
    unfold ghostPhase
    split <;> rfl
  unfold runIteration
  cases inp.event with
  | none =>
    dsimp only
    rw [hphase]
    exact h
  | some ev =>
    cases ev with
    | expose =>
      dsimp only [handleEvent]
      split <;> first | (dsimp only; rw [hphase]; exact h) | (rw [hphase]; exact h)
    | other =>
      dsimp only [handleEvent]
      split <;> first | (dsimp only; rw [hphase]; exact h) | (rw [hphase]; exact h)
    | keyPress keycode =>
      have hk := keySwitch_player_onGrid (ghostPhase s inp.ghost_ticks) keycode
        inp.spawn_rnd inp.spawn_clock (by rw [hphase]; exact h)
      dsimp only [handleEvent]
      split <;> first | (dsimp only; rw [update_player]; exact hk) | (rw [update_player]; exact hk)

theorem run_player_onGrid (s : Game) (inputs : List Inputs)
    (h : onGrid s.player_.position) : onGrid (run s inputs).player_.position := by
  induction inputs generalizing s with
  | nil => exact h
  | cons inp rest ih =>
    unfold run
    split
    · exact ih (runIteration s inp) (runIteration_player_onGrid s inp h)
    · exact h

/-- Every finite run from the constructed game keeps the player and the ghosts on the
grid. -/
theorem run_gridAligned (rnd clock : Nat → Int) (inputs : List Inputs) :
    gridAligned (run (Game.ctor rnd clock) inputs) :=
  ⟨run_player_onGrid _ inputs ⟨⟨1, rfl⟩, ⟨1, rfl⟩⟩,
    run_ghosts_forall (fun g => onGrid g.position) Ghost.move_onGrid createGhosts_onGrid _
      inputs (fun g hg => createGhosts_onGrid (fun i => rnd (i + 20)) clock g hg)⟩

/-- Every ghost of every finite run from the constructed game has the move interval of
250,000,000 ns. -/
theorem run_ghost_interval (rnd clock : Nat → Int) (inputs : List Inputs) :
    ∀ g ∈ (run (Game.ctor rnd clock) inputs).ghosts_, g.move_time_ns_ = 250000000 :=
  run_ghosts_forall (fun g => g.move_time_ns_ = 250000000)
    (fun g r t h => (Ghost.move_frame g r t).2.2.1.trans h)
    (fun r c g hg => (mem_createGhosts r c g hg).choose_spec.2.2) _ inputs
    (fun g hg => (mem_createGhosts (fun i => rnd (i + 20)) clock g hg).choose_spec.2.2)

/-- C13: grid alignment is an invariant. After every finite sequence of iterations of the
loop of `run`, started from the constructed game, with any events, clock readings and
values of `std::rand()`, the coordinates of the player and of every ghost are integer
multiples of 10. -/
theorem grid_alignment_invariant (rnd clock : Nat → Int) (inputs : List Inputs) :
    ((10 : Int) ∣ (run (Game.ctor rnd clock) inputs).player_.position.x
        ∧ (10 : Int) ∣ (run (Game.ctor rnd clock) inputs).player_.position.y)
      ∧ ∀ g ∈ (run (Game.ctor rnd clock) inputs).ghosts_,
          (10 : Int) ∣ g.position.x ∧ (10 : Int) ∣ g.position.y :=
  run_gridAligned rnd clock inputs

/-- Witness for C13: a concrete run from the game constructed with `spawnOnPlayer`. In the
first iteration the first ghost moves right from (10, 10) to (20, 10) and a Left press
moves the player to (0, 10); the second iteration has no event and no ghost is due. -/
theorem grid_alignment_invariant_witness :
    (run (Game.ctor spawnOnPlayer (fun _ => 0))
        [busyInputs (some (Event.keyPress KEY_LEFT)), busyInputs none]).player_.position
        = ⟨0, 10⟩
      ∧ ((run (Game.ctor spawnOnPlayer (fun _ => 0))
        [busyInputs (some (Event.keyPress KEY_LEFT)), busyInputs none]).ghosts_.map
          (fun g => g.position)).head? = some ⟨20, 10⟩
      ∧ (10 : Int) ∣ (run (Game.ctor spawnOnPlayer (fun _ => 0))
        [busyInputs (some (Event.keyPress KEY_LEFT)), busyInputs none]).player_.position.x :=
  ⟨by decide, by decide,
    (grid_alignment_invariant spawnOnPlayer (fun _ => 0)
      [busyInputs (some (Event.keyPress KEY_LEFT)), busyInputs none]).1.1⟩

end mygame
